import Mathlib

/-!
Verification development for the DORA metrics aggregation engine of
`dorasampleproj/Dora_Application`.

The JavaScript source is shallowly embedded as executable Lean definitions:

* Instants (JS `Date` values) are modelled as integers counting milliseconds
  since the Unix epoch; the runtime timezone is taken to be UTC, so the local
  calendar-day arithmetic of `setDate`/`getDate` coincides with the UTC
  calendar days emitted by `toISOString().slice(0, 10)`.  A calendar day is
  the integer `⌊t / 86400000⌋` and a series `date` is that day number.
* JS numbers that can only be finite rationals in the modelled code paths are
  embedded as `ℚ`; where the code can produce `NaN` (date arithmetic on an
  unparseable timestamp) values are embedded as `JSNum`, a rational extended
  with `NaN`/`±Infinity`.
* Fields that can be JSON `null`/absent are `Option`; JS truthiness tests on
  timestamp strings become `Option.isSome`.
* `Math.random()` draws are made explicit: a stream `rand : ℕ → ℚ` of values
  in `[0, 1)` consumed at an explicitly threaded index, in the exact order
  the source calls `Math.random()`.
-/

/-- Milliseconds in one calendar day. -/
def msPerDay : ℤ := 86400000

/-- Milliseconds in one hour. -/
def msPerHour : ℤ := 3600000

/-- Calendar day (UTC) of an instant, as produced by
`new Date(ts).toISOString().slice(0, 10)`: the floor of the instant divided
by the length of a day. -/
def dayOfTs (t : ℤ) : ℤ := Int.fdiv t msPerDay

/-- Midnight (UTC) of the calendar day containing `t`. -/
def startOfDay (t : ℤ) : ℤ := msPerDay * dayOfTs t

/-- JS `Date.prototype.getHours` under a UTC runtime: the hour-of-day of `t`. -/
def hoursOfDay (t : ℤ) : ℤ := Int.fdiv (Int.emod t msPerDay) msPerHour

/-- JS `d.setHours(h)` (single argument): replaces the hour-of-day, keeping
minutes, seconds and milliseconds; out-of-range hours roll the date, which is
plain arithmetic on the underlying instant. -/
def setHours1 (t h : ℤ) : ℤ := startOfDay t + h * msPerHour + Int.emod t msPerHour

/-- JS `d.setHours(h, m)` (two arguments): replaces hour and minute, keeping
seconds and milliseconds. -/
def setHoursMin (t h m : ℤ) : ℤ := startOfDay t + h * msPerHour + m * 60000 + Int.emod t 60000

/-- Substring test on character lists: does `needle` occur contiguously inside
`hay`?  This models JS `String.prototype.includes`. -/
def listContainsSub (needle : List Char) : List Char → Bool
  | [] => needle.isEmpty
  | c :: rest => needle.isPrefixOf (c :: rest) || listContainsSub needle rest

/-- JS `hay.includes(needle)`. -/
def strContains (hay needle : String) : Bool :=
  listContainsSub needle.toList hay.toList

/-- A JS number: either a finite rational or one of the non-finite IEEE
values.  Only the operations the source exercises are modelled. -/
inductive JSNum where
  | nan : JSNum
  | inf : JSNum
  | ninf : JSNum
  | num (q : ℚ) : JSNum
deriving DecidableEq

/-- JS subtraction on numbers (as produced by `dateA - dateB`):
`NaN` propagates and `∞ - ∞ = NaN`. -/
def jsSub : JSNum → JSNum → JSNum
  | .nan, _ => .nan
  | _, .nan => .nan
  | .inf, .inf => .nan
  | .inf, _ => .inf
  | .ninf, .ninf => .nan
  | .ninf, _ => .ninf
  | .num _, .inf => .ninf
  | .num _, .ninf => .inf
  | .num a, .num b => .num (a - b)

/-- JS addition on numbers: `NaN` propagates and `∞ + (-∞) = NaN`. -/
def jsAdd : JSNum → JSNum → JSNum
  | .nan, _ => .nan
  | _, .nan => .nan
  | .inf, .ninf => .nan
  | .inf, _ => .inf
  | .ninf, .inf => .nan
  | .ninf, _ => .ninf
  | .num _, .inf => .inf
  | .num _, .ninf => .ninf
  | .num a, .num b => .num (a + b)

/-- JS division on numbers.  `NaN` propagates, `0/0` and `∞/∞` are `NaN`,
division of a nonzero finite number by zero is a signed infinity (signed
zeroes are collapsed to `+0`, which is the only zero arising here). -/
def jsDiv : JSNum → JSNum → JSNum
  | .nan, _ => .nan
  | _, .nan => .nan
  | .inf, .inf => .nan
  | .inf, .ninf => .nan
  | .ninf, .inf => .nan
  | .ninf, .ninf => .nan
  | .inf, .num b => if b < 0 then .ninf else .inf
  | .ninf, .num b => if b < 0 then .inf else .ninf
  | .num _, .inf => .num 0
  | .num _, .ninf => .num 0
  | .num a, .num b =>
      if b = 0 then (if a = 0 then .nan else if a < 0 then .ninf else .inf)
      else .num (a / b)

/-- Sum of a list of JS numbers, as `reduce((a, b) => a + b, 0)`. -/
def jsListSum (l : List JSNum) : JSNum := l.foldl jsAdd (.num 0)

/-- Result of `new Date(s)` on a vendor timestamp string: a valid instant, or
an Invalid Date whose numeric value is `NaN`. -/
inductive JSDate where
  | valid (t : ℤ) : JSDate
  | invalid : JSDate
deriving DecidableEq

/-- Numeric value of a JS date (`date.valueOf()`). -/
def jsDateNum : JSDate → JSNum
  | .valid t => .num t
  | .invalid => .nan

/-! ## GitHub backend (`src/backend/routes/github.js`) -/

/-- A workflow-run record as consumed by the backend calculators.  The raw
GitHub object carries arbitrary vendor fields; the ones any modelled code
path reads are listed.  Timestamp fields are already-parsed instants
(`Option` is JSON `null`/absent, i.e. JS-falsy); the `/metrics` route only
feeds the builder runs whose `created_at` passed a `new Date(...) >= cutoff`
test, so an unparseable `created_at` cannot reach it. -/
structure WorkflowRun where
  conclusion : String
  created_at : Option ℤ
  deploy_time : Option ℤ
  run_started_at : Option ℤ
  created : Option ℤ
deriving DecidableEq

/-- One bucket of the raw deployment series (`{ date, count }`). -/
structure RawPoint where
  date : ℤ
  count : ℕ
deriving DecidableEq

/-- One emitted series point (`{ date, value }`). -/
structure SeriesPoint where
  date : ℤ
  value : ℕ
deriving DecidableEq

/-- Return value of `buildDeploymentSeries`. -/
structure DeploySeriesResult where
  rawSeries : List RawPoint
  rawSeriesFiltered : List SeriesPoint
  totalDeploys : ℕ
deriving DecidableEq

/-- The filter applied per run inside `buildDeploymentSeries`:
`!run || run.conclusion !== conclusionType || !run.created_at` skips the run. -/
def keepRun (conclusionType : String) (run : WorkflowRun) : Bool :=
  run.conclusion == conclusionType && run.created_at.isSome

/-- The `countsByDate` dictionary of `buildDeploymentSeries`, read at one key:
the number of kept runs whose `created_at` calendar day equals `day`. -/
def countsByDate (workflowRuns : List WorkflowRun) (conclusionType : String) (day : ℤ) : ℕ :=
  workflowRuns.countP fun run =>
    keepRun conclusionType run && (dayOfTs (run.created_at.getD 0) == day)

/-- `buildDeploymentSeries(workflowRuns, days, options, conclusionType)` from
`src/backend/routes/github.js`.  `today` is the `new Date()` the function
takes internally, injected here for determinism; the `options` parameter is
unused by the source body and omitted.  The loop filling `rawSeries[i]` with
the bucket for day `today - (days - 1 - i)` becomes a map over
`List.range days`. -/
def buildDeploymentSeries (workflowRuns : List WorkflowRun) (days : ℕ)
    (conclusionType : String) (today : ℤ) : DeploySeriesResult :=
  let rawSeries : List RawPoint :=
    (List.range days).map fun i =>
      { date := dayOfTs today - ((days - 1 - i : ℕ) : ℤ)
        count := countsByDate workflowRuns conclusionType (dayOfTs today - ((days - 1 - i : ℕ) : ℤ)) }
  let totalDeploys := (rawSeries.map (·.count)).sum
  let rawSeriesFiltered := rawSeries.map fun p => { date := p.date, value := p.count }
  { rawSeries := rawSeries, rawSeriesFiltered := rawSeriesFiltered, totalDeploys := totalDeploys }

/-- A pull request as read by `calculateLeadTime`: `created_at` is parsed
unconditionally (and may be an Invalid Date), `merged_at` is first tested for
truthiness and only then parsed. -/
structure PullRequest where
  created_at : JSDate
  merged_at : Option JSDate
deriving DecidableEq

/-- `calculateLeadTime(pulls)` from `src/backend/routes/github.js`: per PR,
`(mergedAt - createdAt) / 3600000` hours, with unmerged PRs mapped to `0`,
averaged over the whole list. -/
def calculateLeadTime (pulls : List PullRequest) : JSNum :=
  if pulls = [] then .num 0
  else
    let leadTimes := pulls.map fun pr =>
      match pr.merged_at with
      | none => JSNum.num 0
      | some mergedAt => jsDiv (jsSub (jsDateNum mergedAt) (jsDateNum pr.created_at)) (.num 3600000)
    jsDiv (jsListSum leadTimes) (.num (pulls.length : ℚ))

/-- `calculateChangeFailureRateSummary(workflowRuns)`: the percentage of runs
whose `conclusion` is exactly `"failure"`, `0` on an empty list. -/
def calculateChangeFailureRateSummary (workflowRuns : List WorkflowRun) : ℚ :=
  if workflowRuns = [] then 0
  else
    let failedRuns := workflowRuns.filter fun run => run.conclusion == "failure"
    ((failedRuns.length : ℚ) / (workflowRuns.length : ℚ)) * 100

/-- A GitHub issue label (`{ name }`). -/
structure IssueLabel where
  name : String
deriving DecidableEq

/-- A GitHub issue as read by `calculateMTTR`.  `created_at` is an
already-parsed instant; `closed_at` is `null` for open issues and JS
`new Date(null)` is the epoch, hence the `getD 0` at the use site. -/
structure Issue where
  labels : List IssueLabel
  state : String
  created_at : ℤ
  closed_at : Option ℤ
deriving DecidableEq

/-- The filter of `calculateMTTR`: some label name contains `"incident"`
case-insensitively, and the issue state is `"closed"`. -/
def issueQualifies (issue : Issue) : Bool :=
  (issue.labels.any fun label => strContains label.name.toLower "incident")
    && issue.state == "closed"

/-- `calculateMTTR(issues)` from `src/backend/routes/github.js`: mean recovery
time in hours over closed, incident-labelled issues. -/
def calculateMTTR (issues : List Issue) : ℚ :=
  let resolvedIssues := issues.filter issueQualifies
  if resolvedIssues = [] then 0
  else
    let recoveryTimes := resolvedIssues.map fun issue =>
      ((issue.closed_at.getD 0 - issue.created_at : ℤ) : ℚ) / 3600000
    recoveryTimes.sum / (recoveryTimes.length : ℚ)

/-- The JSON body built by `router.get("/metrics")` in
`src/backend/routes/github.js` (numeric payloads only; the constant `unit`
strings are omitted).  `lead_time_value` is a `JSNum` because
`calculateLeadTime` can produce `NaN`; every other field is computed by
finite rational arithmetic. -/
structure GHResponse where
  deployment_frequency : List SeriesPoint
  deployment_frequency_summary_value : ℚ
  lead_time_value : JSNum
  change_failure_rate : List SeriesPoint
  change_failure_rate_summary_value : ℚ
  mean_time_to_recovery_value : ℚ
deriving DecidableEq

/-- The metrics computation of `router.get("/metrics")`: fetched inputs are
parameters (`workflowRuns`, `pulls`, `issues`) together with the wall clock
`today`.  `daysWindow` is the constant 30 of the route. -/
def ghMetricsResponse (workflowRuns : List WorkflowRun) (pulls : List PullRequest)
    (issues : List Issue) (today : ℤ) : GHResponse :=
  let daysWindow : ℕ := 30
  let deploymentResult := buildDeploymentSeries workflowRuns 30 "success" today
  let deploymentSeriesToClient := deploymentResult.rawSeriesFiltered
  let totalDeploys := deploymentResult.totalDeploys
  let deploymentFrequency : ℚ := (totalDeploys : ℚ) / (daysWindow : ℚ)
  let leadTime := calculateLeadTime pulls
  let changeFailureRate := buildDeploymentSeries workflowRuns 30 "failure" today
  let changeFailureRateSummary := calculateChangeFailureRateSummary workflowRuns
  let mttr := calculateMTTR issues
  { deployment_frequency := deploymentSeriesToClient
    deployment_frequency_summary_value := deploymentFrequency
    lead_time_value := leadTime
    change_failure_rate := changeFailureRate.rawSeriesFiltered
    change_failure_rate_summary_value := changeFailureRateSummary
    mean_time_to_recovery_value := mttr }

/-! ## ServiceNow mock route (`src/unnamed/part_003`, `routes/servicenow.js`) -/

/-- A synthetic deployment record produced by `generateMockData`. -/
structure SNDeployment where
  sys_id : String
  deploy_time : ℤ
  environment : String
  status : String
deriving DecidableEq

/-- A synthetic change-request record produced by `generateMockData`. -/
structure SNChange where
  sys_id : String
  number : String
  sys_created_on : ℤ
  implemented_on : Option ℤ
  result : String
deriving DecidableEq

/-- A synthetic incident record.  `opened_at`/`closed_at` are `Option` so the
truthiness filter of `calculateMTTRHours` is expressible; generated records
always carry both. -/
structure SNIncident where
  sys_id : String
  opened_at : Option ℤ
  closed_at : Option ℤ
  severity : String
deriving DecidableEq

/-- The three arrays returned by `generateMockData`. -/
structure SNData where
  deployments : List SNDeployment
  changes : List SNChange
  incidents : List SNIncident
deriving DecidableEq

/-- One iteration of the inner `for (let j = 0; j < num; j++)` body of
`generateMockData`: builds a deployment, its change request and possibly an
incident, consuming `Math.random()` draws from index `k` in source order
(hours, minutes, success, created-offset, then — only on failure — the
incident chance and, if it fires, its two offsets and severity). -/
def genOne (i j : ℕ) (dayTs : ℤ) (rand : ℕ → ℚ) (k : ℕ) :
    SNDeployment × SNChange × Option SNIncident × ℕ :=
  let t := setHoursMin dayTs (1 + ⌊rand k * 20⌋) ⌊rand (k + 1) * 60⌋
  let success := rand (k + 2) < 9 / 10
  let dep : SNDeployment :=
    { sys_id := s!"dep-{i}-{j}", deploy_time := t, environment := "prod"
      status := if success then "success" else "failure" }
  let created := setHours1 t (hoursOfDay t - (6 + ⌊rand (k + 3) * 72⌋))
  let implemented : Option ℤ := if success then some t else none
  let crNum := 1000 + i * 10 + j
  let change : SNChange :=
    { sys_id := s!"cr-{i}-{j}", number := s!"CR{crNum}", sys_created_on := created
      implemented_on := implemented, result := if success then "successful" else "failed" }
  if success then (dep, change, none, k + 4)
  else if rand (k + 4) < 7 / 10 then
    let op := setHours1 t (hoursOfDay t + 1 + ⌊rand (k + 5) * 6⌋)
    let resolved := setHours1 op (hoursOfDay op + 1 + ⌊rand (k + 6) * 48⌋)
    let inc : SNIncident :=
      { sys_id := s!"inc-{i}-{j}", opened_at := some op, closed_at := some resolved
        severity := if rand (k + 7) < 1 / 2 then "high" else "medium" }
    (dep, change, some inc, k + 8)
  else (dep, change, none, k + 5)

/-- The inner loop of `generateMockData`: `cnt` remaining iterations starting
at index `j`, threading the random index. -/
def genDeploysForDay (i : ℕ) (dayTs : ℤ) (rand : ℕ → ℚ) :
    ℕ → ℕ → ℕ → List SNDeployment × List SNChange × List SNIncident × ℕ
  | 0, _, k => ([], [], [], k)
  | cnt + 1, j, k =>
      let r := genOne i j dayTs rand k
      let rest := genDeploysForDay i dayTs rand cnt (j + 1) r.2.2.2
      (r.1 :: rest.1, r.2.1 :: rest.2.1,
        (match r.2.2.1 with | some inc => inc :: rest.2.2.1 | none => rest.2.2.1),
        rest.2.2.2)

/-- The outer day loop of `generateMockData`: `rem` remaining days starting at
day index `i`.  Each day first draws the zero-deployment chance and, when it
misses, the deployment count in `{1, 2}`. -/
def genDaysAux (now : ℤ) (days : ℕ) (rand : ℕ → ℚ) :
    ℕ → ℕ → ℕ → List SNDeployment × List SNChange × List SNIncident × ℕ
  | 0, _, k => ([], [], [], k)
  | rem + 1, i, k =>
      let dayTs := now - ((days - 1 - i : ℕ) : ℤ) * msPerDay
      let nk : ℕ × ℕ :=
        if rand k < 2 / 5 then (0, k + 1)
        else ((⌊rand (k + 1) * 2⌋).toNat + 1, k + 2)
      let dayOut := genDeploysForDay i dayTs rand nk.1 0 nk.2
      let rest := genDaysAux now days rand rem (i + 1) dayOut.2.2.2
      (dayOut.1 ++ rest.1, dayOut.2.1 ++ rest.2.1, dayOut.2.2.1 ++ rest.2.2.1, rest.2.2.2)

/-- The trailing loop of `generateMockData` adding 3 incidents not tied to
deployments. -/
def genExtraIncidents (now : ℤ) (days : ℕ) (rand : ℕ → ℚ) :
    ℕ → ℕ → ℕ → List SNIncident
  | 0, _, _ => []
  | rem + 1, idx, k =>
      let d := now - ⌊rand k * days⌋ * msPerDay
      let op := setHours1 d ⌊rand (k + 1) * 24⌋
      let closed := setHours1 op (hoursOfDay op + 2 + ⌊rand (k + 2) * 72⌋)
      { sys_id := s!"inc-extra-{idx}", opened_at := some op, closed_at := some closed
        severity := "medium" } :: genExtraIncidents now days rand rem (idx + 1) (k + 3)

/-- `generateMockData(days)` from the ServiceNow route, with the wall clock
`now` and the `Math.random()` stream `rand` made explicit. -/
def generateMockData (days : ℕ) (now : ℤ) (rand : ℕ → ℚ) : SNData :=
  let main := genDaysAux now days rand days 0 0
  { deployments := main.1, changes := main.2.1
    incidents := main.2.2.1 ++ genExtraIncidents now days rand 3 0 main.2.2.2 }

/-- `buildDeploymentSeriesFromDeployments(deployments, days)`: a zero-filled
per-day counts dictionary over the trailing window (keys inserted oldest
first, so `Object.keys` iterates them in ascending date order), incremented
for each deployment whose day is a key.  Returns the series and its total. -/
def buildDeploymentSeriesFromDeployments (deployments : List SNDeployment) (days : ℕ)
    (today : ℤ) : List SeriesPoint × ℕ :=
  let series : List SeriesPoint :=
    (List.range days).map fun i =>
      { date := dayOfTs today - ((days - 1 - i : ℕ) : ℤ)
        value := deployments.countP fun d =>
          dayOfTs d.deploy_time == dayOfTs today - ((days - 1 - i : ℕ) : ℤ) }
  (series, (series.map (·.value)).sum)

/-- The `deploymentsMap` built in the ServiceNow `/metrics` handler: maps
`"cr-" + sys_id.split('-')[1]` to the deployment time, later entries
overwriting earlier ones. -/
def deploymentsMapOf (deployments : List SNDeployment) : List (String × ℤ) :=
  deployments.map fun d => ("cr-" ++ ((d.sys_id.splitOn "-").getD 1 ""), d.deploy_time)

/-- Reading `deploymentsMap[key]`: the last binding wins, a missing key is
JS-falsy. -/
def mapLookup (m : List (String × ℤ)) (key : String) : Option ℤ :=
  (m.reverse.find? fun p => p.1 == key).map (·.2)

/-- The loop body of `calculateLeadTimeHours` for one change: the implemented
timestamp (own field, else the deployments-map fallback), giving the duration
in hours when present and non-negative. -/
def leadHoursOf (dmap : List (String × ℤ)) (c : SNChange) : Option ℚ :=
  let implemented : Option ℤ :=
    match c.implemented_on with
    | some t => some t
    | none => mapLookup dmap c.sys_id
  match implemented with
  | none => none
  | some imp =>
      let hours : ℚ := ((imp - c.sys_created_on : ℤ) : ℚ) / 3600000
      if 0 ≤ hours then some hours else none

/-- `calculateLeadTimeHours(changes, deploymentsMap)` from the ServiceNow
route: mean over the accumulated eligible durations, `0` when none.  (The
source also guards on the created date being truthy; `new Date(...)` objects
are always truthy, so that conjunct is vacuous.) -/
def calculateLeadTimeHours (changes : List SNChange) (dmap : List (String × ℤ)) : ℚ :=
  let leadTimes := changes.filterMap (leadHoursOf dmap)
  if leadTimes = [] then 0 else leadTimes.sum / (leadTimes.length : ℚ)

/-- `calculateChangeFailureRatePercent(changes)` from the ServiceNow route:
percentage of changes whose `result` contains `"fail"` case-insensitively
(an empty `result` string is JS-falsy and contains nothing, so the
truthiness guard is absorbed by the substring test). -/
def calculateChangeFailureRatePercent (changes : List SNChange) : ℚ :=
  if changes = [] then 0
  else
    let failed := (changes.filter fun c => strContains c.result.toLower "fail").length
    ((failed : ℚ) / (changes.length : ℚ)) * 100

/-- `calculateMTTRHours(incidents)` from the ServiceNow route: the
filter-map-filter pipeline keeping incidents with both timestamps, taking
hours, and keeping the non-negative ones; mean, `0` when none. -/
def calculateMTTRHours (incidents : List SNIncident) : ℚ :=
  let withBoth := incidents.filter fun inc => inc.opened_at.isSome && inc.closed_at.isSome
  let hoursList := withBoth.map fun inc =>
    ((inc.closed_at.getD 0 - inc.opened_at.getD 0 : ℤ) : ℚ) / 3600000
  let durations := hoursList.filter fun h => 0 ≤ h
  if durations = [] then 0 else durations.sum / (durations.length : ℚ)

/-- `Number(x.toFixed(2))`, modelled as exact half-up rounding to two decimal
places on rationals. -/
def roundTo2 (q : ℚ) : ℚ := ((round (q * 100) : ℤ) : ℚ) / 100

/-- The JSON body of the ServiceNow `router.get('/metrics')` (numeric
payloads; constant `unit` strings omitted).  Note the summary value is the
raw deployment total, labelled `'total deployments'` in the source. -/
structure SNResponse where
  deployment_frequency : List SeriesPoint
  deployment_frequency_summary_value : ℕ
  lead_time_value : ℚ
  change_failure_rate_value : ℚ
  mean_time_to_recovery_value : ℚ
deriving DecidableEq

/-- The ServiceNow `/metrics` handler: synthesizes mock data from the random
stream, builds the series, the `deploymentsMap`, and the three scalar
summaries.  `days` is `Number(req.query.days || 30)`; `now` is the wall
clock, shared with the generator and the series builder. -/
def snMetricsResponse (days : ℕ) (now : ℤ) (rand : ℕ → ℚ) : SNResponse :=
  let data := generateMockData days now rand
  let built := buildDeploymentSeriesFromDeployments data.deployments days now
  let dmap := deploymentsMapOf data.deployments
  let leadTime := calculateLeadTimeHours data.changes dmap
  let changeFailureRate := calculateChangeFailureRatePercent data.changes
  let mttr := calculateMTTRHours data.incidents
  { deployment_frequency := built.1
    deployment_frequency_summary_value := built.2
    lead_time_value := roundTo2 leadTime
    change_failure_rate_value := roundTo2 changeFailureRate
    mean_time_to_recovery_value := roundTo2 mttr }

/-! ## Frontend (`src/src/Dashboard.js` and the MetricDetails module) -/

/-- The shapes a value fed to the frontend `toNumber` helper can take in the
modelled call sites: JSON `null`/absent, a plain number, an object exposing a
`value` property, or an object without one (e.g. a series array, whose
`Number(...)` coercion is `NaN` for the arrays of point objects the code
passes). -/
inductive JSInput where
  | jnull : JSInput
  | jnum (n : JSNum) : JSInput
  | jobjVal (v : JSInput) : JSInput
  | jobjPlain : JSInput
deriving DecidableEq

/-- JS `Number(x)` coercion on the modelled shapes: `Number(null) = 0`,
numbers unchanged, the modelled objects coerce to `NaN`. -/
def jsNumberOf : JSInput → JSNum
  | .jnull => .num 0
  | .jnum n => n
  | .jobjVal _ => .nan
  | .jobjPlain => .nan

/-- JS `x || fb` where `x` is a number: `NaN` and `0` are falsy. -/
def orFallback (n : JSNum) (fb : ℚ) : JSNum :=
  if n = .nan ∨ n = .num 0 then .num fb else n

/-- The `toNumber(v, fallback)` helper of `fetchMetrics` in
`src/src/Dashboard.js`: `null` gives the fallback; an object with a `value`
property gives `Number(v.value ?? fallback) || fallback`; a plain object
gives `Number(v) || fallback`; a plain number is returned unless it is
`NaN`. -/
def toNumber : JSInput → ℚ → JSNum
  | .jnull, fb => .num fb
  | .jobjVal v, fb =>
      let inner := match v with
        | .jnull => JSNum.num fb
        | w => jsNumberOf w
      orFallback inner fb
  | .jobjPlain, fb => orFallback (jsNumberOf .jobjPlain) fb
  | .jnum n, fb => if n = .nan then .num fb else n

/-- `toNumberLocal` in the fallback branch of `fetchMetrics` duplicates
`toNumber` verbatim; it is shared here. -/
def toNumberLocal : JSInput → ℚ → JSNum := toNumber

/-- The four metric values held in the dashboard state (the per-field
`timestamp` of the source is the excluded computation timestamp). -/
structure DashValues where
  deployment_frequency : JSNum
  lead_time : JSNum
  change_failure_rate : JSNum
  mean_time_to_recovery : JSNum
deriving DecidableEq

/-- The `defaultMetrics` constants of `src/src/Dashboard.js` (also rebuilt
verbatim as `mockData` in the final fallback branch). -/
def defaultDashValues : DashValues :=
  { deployment_frequency := .num (1 / 2), lead_time := .num 48
    change_failure_rate := .num 15, mean_time_to_recovery := .num 36 }

/-- The success branch of `fetchMetrics`: values derived from the backend
`/metrics` payload.  With a configured data source the deployment summary is
recomputed from the (always-array) series as `total / max(length, 1)`;
otherwise the default `0.5` stands.  `lead_time` and `mean_time_to_recovery`
unwrap `payload.x.value`; `change_failure_rate` reads
`payload.change_failure_rate?.value ?? payload.change_failure_rate`, which is
the series array itself — an object without a `value` property, so `toNumber`
falls back to the default 15.  (The source line
`const ds = dataSourcesOverride ? dataSources;` is truncated; `dsCount`
models the length of the data-source list it selects.) -/
def fetchMetricsSuccess (gh : GHResponse) (dsCount : ℕ) : DashValues :=
  let deploymentSeries := gh.deployment_frequency.map fun p =>
    (p.date, toNumber (.jnum (.num (p.value : ℚ))) 0)
  let total := jsListSum (deploymentSeries.map (·.2))
  let deploymentSummaryValue : JSNum :=
    if dsCount ≠ 0 then jsDiv total (.num (max gh.deployment_frequency.length 1 : ℕ))
    else .num (1 / 2)
  { deployment_frequency := toNumber (.jnum deploymentSummaryValue) (1 / 2)
    lead_time := toNumber (.jnum gh.lead_time_value) 48
    change_failure_rate := toNumber .jobjPlain 15
    mean_time_to_recovery := toNumber (.jnum (.num gh.mean_time_to_recovery_value)) 36 }

/-- The body of the alternate `${API}/metrics/github` response consumed by the
first catch block of `fetchMetrics`: each metric is probed under two field
names (`a ?? b ?? 0`). -/
structure FallbackPayload where
  deploymentFrequency : Option JSInput
  deployment_frequency_summary : Option JSInput
  leadTime : Option JSInput
  lead_time : Option JSInput
  changeFailureRate : Option JSInput
  change_failure_rate : Option JSInput
  mttr : Option JSInput
  mean_time_to_recovery : Option JSInput
deriving DecidableEq

/-- The metric values built inside the first catch block of `fetchMetrics`
from the alternate backend response. -/
def fallbackValues (fb : FallbackPayload) : DashValues :=
  { deployment_frequency :=
      toNumberLocal ((fb.deploymentFrequency <|> fb.deployment_frequency_summary).getD (.jnum (.num 0))) 0
    lead_time := toNumberLocal ((fb.leadTime <|> fb.lead_time).getD (.jnum (.num 0))) 0
    change_failure_rate :=
      toNumberLocal ((fb.changeFailureRate <|> fb.change_failure_rate).getD (.jnum (.num 0))) 0
    mean_time_to_recovery :=
      toNumberLocal ((fb.mttr <|> fb.mean_time_to_recovery).getD (.jnum (.num 0))) 0 }

/-- The try/catch cascade of `fetchMetrics` in `src/src/Dashboard.js`.
`primary` is the outcome of the `${API}/data-sources/metrics` fetch,
`alternate` the outcome of the `${API}/metrics/github` fetch attempted only
inside the catch block.  The second component counts how many alternate
retrievals were attempted.  Every path ends in a `setMetrics` call with all
four metrics populated, which is the returned record. -/
def fetchMetricsModel (primary : Option GHResponse) (alternate : Option FallbackPayload)
    (dsCount : ℕ) : DashValues × ℕ :=
  match primary with
  | some gh => (fetchMetricsSuccess gh dsCount, 0)
  | none =>
      match alternate with
      | some fb => (fallbackValues fb, 1)
      | none => (defaultDashValues, 1)

/-- A deployment-like record as read by `buildSeriesFromDeployments` in the
MetricDetails module (second document of `src/src/Dashboard.js`). -/
structure FrontDep where
  deploy_time : Option ℤ
  run_started_at : Option ℤ
  created_at : Option ℤ
  created : Option ℤ
deriving DecidableEq

/-- The `dateField` parameter of `buildSeriesFromDeployments` (the call sites
pass `'deploy_time'`, `'run_started_at'` or `'created_at'`; the default is
`'deploy_time'`). -/
inductive DateField where
  | deployTimeField : DateField
  | runStartedField : DateField
  | createdAtField : DateField
deriving DecidableEq

/-- `d[dateField]` for the modelled field names. -/
def fieldOf (d : FrontDep) : DateField → Option ℤ
  | .deployTimeField => d.deploy_time
  | .runStartedField => d.run_started_at
  | .createdAtField => d.created_at

/-- `d[dateField] || d.run_started_at || d.created_at || d.created`: the
first present (truthy) timestamp in that fallback order. -/
def rawTimestampOf (dateField : DateField) (d : FrontDep) : Option ℤ :=
  fieldOf d dateField <|> d.run_started_at <|> d.created_at <|> d.created

/-- `buildSeriesFromDeployments(deployments, days, dateField)` from the
MetricDetails module: a zero-filled ascending window of `days` buckets;
each deployment with a present timestamp increments the bucket of its
calendar day, deployments with no timestamp are skipped (`continue`). -/
def buildSeriesFromDeployments (deployments : List FrontDep) (days : ℕ)
    (dateField : DateField) (today : ℤ) : List SeriesPoint :=
  (List.range days).map fun i =>
    { date := dayOfTs today - ((days - 1 - i : ℕ) : ℤ)
      value := deployments.countP fun d =>
        match rawTimestampOf dateField d with
        | none => false
        | some raw => dayOfTs raw == dayOfTs today - ((days - 1 - i : ℕ) : ℤ) }

/-- Modelled from the spec: the timestamp-extraction contract of §4.1 — try
the aliased vendor field names in the fixed priority order `deploy_time`,
then `run_started_at`, then `created_at`, then `created`, and use the first
non-null value; `none` means the event is dropped.  Stated over the same
record shapes the code reads, for comparison with the extraction the code
actually performs. -/
def specFirstTimestamp (deploy_time run_started_at created_at created : Option ℤ) : Option ℤ :=
  deploy_time <|> run_started_at <|> created_at <|> created

/-! ## Helper lemmas -/

/-- The filtered series of `buildDeploymentSeries` written as one map over the
window indices. -/
theorem rawSeriesFiltered_eq (runs : List WorkflowRun) (concl : String) (today : ℤ) (N : ℕ) :
    (buildDeploymentSeries runs N concl today).rawSeriesFiltered
      = (List.range N).map fun i =>
          { date := dayOfTs today - ((N - 1 - i : ℕ) : ℤ)
            value := countsByDate runs concl (dayOfTs today - ((N - 1 - i : ℕ) : ℤ)) } := by
  simp only [buildDeploymentSeries, List.map_map]
  rfl

/-- Element access in a window series built by mapping over `List.range`. -/
theorem rangeMap_getElem? {α : Type} (f : ℕ → α) (N i : ℕ) (h : i < N) :
    ((List.range N).map f)[i]? = some (f i) := by
  simp [List.getElem?_map, List.getElem?_range, h]

/-- `countsByDate` vanishes on a day with no kept run. -/
theorem countsByDate_eq_zero (runs : List WorkflowRun) (concl : String) (day : ℤ)
    (h : ∀ run ∈ runs, ¬(keepRun concl run = true ∧ dayOfTs (run.created_at.getD 0) = day)) :
    countsByDate runs concl day = 0 := by
  unfold countsByDate
  rw [List.countP_eq_zero]
  intro run hrun
  have := h run hrun
  simp only [Bool.and_eq_true, beq_iff_eq]
  tauto

/-! ## Claim C1 -/

/-- Claim C1: for every window length `N ≥ 1` and every (possibly empty)
event list, each daily-series builder (`buildDeploymentSeries` in the GitHub
backend and `buildDeploymentSeriesFromDeployments` in the ServiceNow route)
returns exactly `N` points, the `i`-th point carrying the calendar day
`today - (N - 1 - i)` — so the days are contiguous and ascending over the
trailing window — with value the number of events on that day, hence `0`
when the day has no events. -/
theorem buildSeries_dense_window (runs : List WorkflowRun) (deps : List SNDeployment)
    (concl : String) (today : ℤ) (N : ℕ) (_hN : 1 ≤ N) :
    ((buildDeploymentSeries runs N concl today).rawSeriesFiltered.length = N
      ∧ (∀ i, i < N →
          ((buildDeploymentSeries runs N concl today).rawSeriesFiltered)[i]? =
            some { date := dayOfTs today - ((N - 1 - i : ℕ) : ℤ)
                   value := countsByDate runs concl (dayOfTs today - ((N - 1 - i : ℕ) : ℤ)) })
      ∧ (∀ p ∈ (buildDeploymentSeries runs N concl today).rawSeriesFiltered,
          (∀ run ∈ runs, ¬(keepRun concl run = true ∧ dayOfTs (run.created_at.getD 0) = p.date))
            → p.value = 0))
    ∧ ((buildDeploymentSeriesFromDeployments deps N today).1.length = N
      ∧ (∀ i, i < N →
          ((buildDeploymentSeriesFromDeployments deps N today).1)[i]? =
            some { date := dayOfTs today - ((N - 1 - i : ℕ) : ℤ)
                   value := deps.countP fun d =>
                     dayOfTs d.deploy_time == dayOfTs today - ((N - 1 - i : ℕ) : ℤ) })
      ∧ (∀ p ∈ (buildDeploymentSeriesFromDeployments deps N today).1,
          (∀ d ∈ deps, dayOfTs d.deploy_time ≠ p.date) → p.value = 0)) := by
  constructor
  · rw [rawSeriesFiltered_eq]
    refine ⟨by simp, fun i hi => rangeMap_getElem? _ N i hi, ?_⟩
    intro p hp h
    obtain ⟨i, _, rfl⟩ := List.mem_map.mp hp
    exact countsByDate_eq_zero runs concl _ h
  · unfold buildDeploymentSeriesFromDeployments
    refine ⟨by simp, fun i hi => rangeMap_getElem? _ N i hi, ?_⟩
    intro p hp h
    obtain ⟨i, _, rfl⟩ := List.mem_map.mp hp
    rw [List.countP_eq_zero]
    intro d hd
    simpa using h d hd

/-- Witness for `buildSeries_dense_window` at `N = 1` with empty event
lists. -/
theorem buildSeries_dense_window_witness :
    (buildDeploymentSeries [] 1 "success" 0).rawSeriesFiltered.length = 1 :=
  (buildSeries_dense_window [] [] "success" 0 1 (by decide)).1.1

/-! ## Claim C2 -/

/-- The random stream of a ServiceNow `/metrics` call that produces exactly
one synthetic deployment in a two-day window: the first draw (the
zero-deployment chance of the oldest day) is `1/2 ≥ 0.4`, every later draw is
`0`, so that day gets one successful deployment and the newer day none. -/
def snRandOneDeploy : ℕ → ℚ := fun n => if n = 0 then 1 / 2 else 0

/-- Claim C2 counterexample: at the ServiceNow `/metrics` endpoint (window
`days = 2`), the emitted series sums to `1` while the deployment-frequency
summary value is the raw total `1`, not `1 / 2` — the summary does not equal
`sum(series.values) / windowDays` at this endpoint. -/
theorem sn_summary_not_sum_div_window :
    ((snMetricsResponse 2 0 snRandOneDeploy).deployment_frequency_summary_value : ℚ)
      ≠ (((((snMetricsResponse 2 0 snRandOneDeploy).deployment_frequency.map (·.value)).sum
            : ℕ)) : ℚ) / 2 := by
  have h1 : (snMetricsResponse 2 0 snRandOneDeploy).deployment_frequency_summary_value = 1 := by
    with_unfolding_all decide
  have h2 : ((snMetricsResponse 2 0 snRandOneDeploy).deployment_frequency.map (·.value)).sum
      = 1 := by
    with_unfolding_all decide
  rw [h1, h2]
  norm_num

/-- Claim C2 amended: the GitHub backend `/metrics` endpoint does satisfy the
round-trip relation — its deployment-frequency summary equals the sum of the
emitted series values divided by the 30-day window — but the ServiceNow
`/metrics` endpoint returns the raw sum of the series values as its summary
(unit `'total deployments'`), not the sum divided by `windowDays`. -/
theorem summary_series_roundtrip_amended :
    (∀ (runs : List WorkflowRun) (pulls : List PullRequest) (issues : List Issue) (today : ℤ),
      (ghMetricsResponse runs pulls issues today).deployment_frequency_summary_value
        = (((ghMetricsResponse runs pulls issues today).deployment_frequency.map (·.value)).sum : ℚ)
            / 30)
    ∧ (∀ (days : ℕ) (now : ℤ) (rand : ℕ → ℚ),
      ((snMetricsResponse days now rand).deployment_frequency_summary_value : ℕ)
        = ((snMetricsResponse days now rand).deployment_frequency.map (·.value)).sum) := by
  constructor
  · intro runs pulls issues today
    simp only [ghMetricsResponse, buildDeploymentSeries, List.map_map]
    norm_num
    rfl
  · intro days now rand
    rfl

/-- Witness for `summary_series_roundtrip_amended` at concrete inputs. -/
theorem summary_series_roundtrip_amended_witness :
    (ghMetricsResponse [] [] [] 0).deployment_frequency_summary_value
      = (((ghMetricsResponse [] [] [] 0).deployment_frequency.map (·.value)).sum : ℚ) / 30 :=
  summary_series_roundtrip_amended.1 [] [] [] 0

/-! ## Claim C3 -/

/-- Eligibility of one incident for `calculateMTTRHours`: both timestamps
present and a non-negative duration, returning that duration. -/
def mttrEligibleHours (inc : SNIncident) : Option ℚ :=
  match inc.opened_at, inc.closed_at with
  | some o, some c =>
      let h : ℚ := ((c - o : ℤ) : ℚ) / 3600000
      if 0 ≤ h then some h else none
  | _, _ => none

/-- An incident that is ineligible (missing a timestamp or negative duration)
is dropped by the filter-map-filter pipeline of `calculateMTTRHours`. -/
theorem snDurations_cons_skip (inc : SNIncident) (incs : List SNIncident)
    (h : mttrEligibleHours inc = none) :
    (((inc :: incs).filter fun i => i.opened_at.isSome && i.closed_at.isSome).map fun i =>
        ((i.closed_at.getD 0 - i.opened_at.getD 0 : ℤ) : ℚ) / 3600000).filter (fun q => 0 ≤ q)
      = ((incs.filter fun i => i.opened_at.isSome && i.closed_at.isSome).map fun i =>
          ((i.closed_at.getD 0 - i.opened_at.getD 0 : ℤ) : ℚ) / 3600000).filter
          (fun q => 0 ≤ q) := by
  rw [List.filter_cons]
  rcases ho : inc.opened_at with _ | o
  · rw [if_neg (by simp)]
  · rcases hc : inc.closed_at with _ | c
    · rw [if_neg (by simp)]
    · have hneg : ¬(0 : ℚ) ≤ ((c - o : ℤ) : ℚ) / 3600000 := by
        unfold mttrEligibleHours at h
        rw [ho, hc] at h
        simp only at h
        intro hcon
        rw [if_pos hcon] at h
        cases h
      rw [if_pos (by simp), List.map_cons, List.filter_cons,
        if_neg (by simp only [ho, hc, Option.getD_some, decide_eq_true_eq]; exact hneg)]

/-- Claim C3 counterexample: `calculateLeadTime` in the GitHub backend maps a
pull request with no merge timestamp to `0` hours and still divides by the
total count — a 24-hour merged PR plus an unmerged PR average to `12`, where
the claim requires `24` (unresolved events excluded from numerator and
denominator) — and a PR whose merge predates its creation contributes its
negative duration, making the summary `-1 < 0`, where the claim requires the
summary to be non-negative. -/
theorem leadtime_clamps_and_goes_negative :
    calculateLeadTime [{ created_at := .valid 0, merged_at := some (.valid 86400000) },
        { created_at := .valid 0, merged_at := none }] = .num 12
    ∧ calculateLeadTime [{ created_at := .valid 3600000, merged_at := some (.valid 0) }]
        = .num (-1) := by
  constructor <;> with_unfolding_all decide

/-- Claim C3 amended: the ServiceNow calculators behave as claimed — a change
with no implemented timestamp (own field or deployments-map fallback) or a
negative duration, and an incident missing a timestamp or with a negative
duration, are excluded from numerator and denominator alike; with no eligible
events the summary is `0`; both summaries are always non-negative.  The
GitHub backend `calculateLeadTime`, by contrast, clamps unresolved pull
requests to zero hours while counting them in the denominator and keeps
negative durations (see the counterexample); `calculateMTTR` likewise never
tests the sign of a duration. -/
theorem sn_calculators_exclude_ineligible :
    (∀ (c : SNChange) (cs : List SNChange) (dmap : List (String × ℤ)),
        leadHoursOf dmap c = none →
        calculateLeadTimeHours (c :: cs) dmap = calculateLeadTimeHours cs dmap)
    ∧ (∀ (inc : SNIncident) (incs : List SNIncident),
        mttrEligibleHours inc = none →
        calculateMTTRHours (inc :: incs) = calculateMTTRHours incs)
    ∧ (∀ (cs : List SNChange) (dmap : List (String × ℤ)), 0 ≤ calculateLeadTimeHours cs dmap)
    ∧ (∀ (incs : List SNIncident), 0 ≤ calculateMTTRHours incs)
    ∧ (∀ (dmap : List (String × ℤ)), calculateLeadTimeHours [] dmap = 0)
    ∧ calculateMTTRHours [] = 0 := by
  refine ⟨?_, ?_, ?_, ?_, ?_, ?_⟩
  · intro c cs dmap h
    unfold calculateLeadTimeHours
    rw [List.filterMap_cons, h]
  · intro inc incs h
    unfold calculateMTTRHours
    dsimp only
    rw [snDurations_cons_skip inc incs h]
  · intro cs dmap
    unfold calculateLeadTimeHours
    dsimp only
    split
    · exact le_refl 0
    · apply div_nonneg
      · apply List.sum_nonneg
        intro x hx
        obtain ⟨c, _, hc⟩ := List.mem_filterMap.mp hx
        unfold leadHoursOf at hc
        rcases himp : (match c.implemented_on with
            | some t => some t
            | none => mapLookup dmap c.sys_id) with _ | imp
        · rw [himp] at hc; cases hc
        · rw [himp] at hc
          simp only at hc
          split at hc
          · cases hc; assumption
          · cases hc
      · positivity
  · intro incs
    unfold calculateMTTRHours
    dsimp only
    split
    · exact le_refl 0
    · apply div_nonneg
      · apply List.sum_nonneg
        intro x hx
        have hx2 := (List.mem_filter.mp hx).2
        simpa using hx2
      · positivity
  · intro dmap; rfl
  · rfl

/-- A change request with no implemented timestamp and no deployments-map
match: ineligible for the ServiceNow lead-time mean. -/
def snUnresolvedChange : SNChange :=
  { sys_id := "cr-0-0", number := "CR1000", sys_created_on := 0
    implemented_on := none, result := "successful" }

/-- Witness for `sn_calculators_exclude_ineligible`: dropping the unresolved
change leaves the lead-time summary untouched. -/
theorem sn_calculators_exclude_ineligible_witness :
    calculateLeadTimeHours [snUnresolvedChange] [] = calculateLeadTimeHours [] [] :=
  sn_calculators_exclude_ineligible.1 snUnresolvedChange [] [] (by with_unfolding_all decide)

/-! ## Claim C4 -/

/-- Bounds and the closed form of a percentage `k / n * 100` with `k ≤ n`. -/
theorem ratio_percent_bounds (k n : ℕ) (hk : k ≤ n) (hn : 0 < n) :
    0 ≤ ((k : ℚ) / (n : ℚ)) * 100 ∧ ((k : ℚ) / (n : ℚ)) * 100 ≤ 100
      ∧ ((k : ℚ) / (n : ℚ)) * 100 = 100 * (k : ℚ) / (n : ℚ) := by
  have hn' : (0 : ℚ) < (n : ℚ) := by exact_mod_cast hn
  refine ⟨by positivity, ?_, by ring⟩
  have h1 : ((k : ℚ) / (n : ℚ)) ≤ 1 := by
    rw [div_le_one hn']
    exact_mod_cast hk
  calc ((k : ℚ) / (n : ℚ)) * 100 ≤ 1 * 100 := by
        apply mul_le_mul_of_nonneg_right h1; norm_num
    _ = 100 := by norm_num

/-- Claim C4: both change-failure-rate calculators
(`calculateChangeFailureRateSummary` in the GitHub backend, counting runs
with conclusion exactly `"failure"`, and `calculateChangeFailureRatePercent`
in the ServiceNow route, counting changes whose result contains `"fail"`)
return `100 · failures / total`, always lie in `[0, 100]`, and return `0` on
an empty input with no division by zero. -/
theorem cfr_formula_and_bounds :
    ∀ (runs : List WorkflowRun) (changes : List SNChange),
      (0 ≤ calculateChangeFailureRateSummary runs
        ∧ calculateChangeFailureRateSummary runs ≤ 100
        ∧ (runs = [] → calculateChangeFailureRateSummary runs = 0)
        ∧ (runs ≠ [] → calculateChangeFailureRateSummary runs
            = 100 * ((runs.filter fun run => run.conclusion == "failure").length : ℚ)
                / (runs.length : ℚ)))
      ∧ (0 ≤ calculateChangeFailureRatePercent changes
        ∧ calculateChangeFailureRatePercent changes ≤ 100
        ∧ (changes = [] → calculateChangeFailureRatePercent changes = 0)
        ∧ (changes ≠ [] → calculateChangeFailureRatePercent changes
            = 100 * ((changes.filter fun c => strContains c.result.toLower "fail").length : ℚ)
                / (changes.length : ℚ))) := by
  intro runs changes
  constructor
  · unfold calculateChangeFailureRateSummary
    by_cases h : runs = []
    · simp [h]
    · have hn : 0 < runs.length := List.length_pos.mpr h
      have hb := ratio_percent_bounds
        (runs.filter fun run => run.conclusion == "failure").length runs.length
        (List.length_filter_le _ _) hn
      rw [if_neg h]
      dsimp only
      exact ⟨hb.1, hb.2.1, fun hc => absurd hc h, fun _ => hb.2.2⟩
  · unfold calculateChangeFailureRatePercent
    by_cases h : changes = []
    · simp [h]
    · have hn : 0 < changes.length := List.length_pos.mpr h
      have hb := ratio_percent_bounds
        (changes.filter fun c => strContains c.result.toLower "fail").length changes.length
        (List.length_filter_le _ _) hn
      rw [if_neg h]
      dsimp only
      exact ⟨hb.1, hb.2.1, fun hc => absurd hc h, fun _ => hb.2.2⟩

/-- A workflow run with conclusion exactly `"failure"`. -/
def failureRun : WorkflowRun :=
  { conclusion := "failure", created_at := some 0, deploy_time := none
    run_started_at := none, created := none }

/-- Witness for `cfr_formula_and_bounds` at a concrete one-failure input. -/
theorem cfr_formula_and_bounds_witness :
    calculateChangeFailureRateSummary [failureRun]
      = 100 * (([failureRun].filter fun run => run.conclusion == "failure").length : ℚ)
          / (([failureRun] : List WorkflowRun).length : ℚ) :=
  (cfr_formula_and_bounds [failureRun] []).1.2.2.2 (by simp)

/-! ## Claim C5 -/

/-- Claim C5 counterexample: the conclusion string `"FAILED"` contains
`"fail"` case-insensitively, so the claim classifies it as a Failure and
requires a change-failure rate of `100` for a single such run; the GitHub
backend compares with `=== "failure"` and reports `0`. -/
theorem gh_outcome_not_case_insensitive :
    strContains ("FAILED".toLower) "fail" = true
    ∧ calculateChangeFailureRateSummary
        [{ conclusion := "FAILED", created_at := some 0, deploy_time := none
           run_started_at := none, created := none }] = 0 := by
  constructor
  · with_unfolding_all decide
  · with_unfolding_all decide

/-- Claim C5 amended: only the ServiceNow change-failure calculator
classifies outcomes by case-insensitive `"fail"`-substring matching; the
GitHub backend calculators (`calculateChangeFailureRateSummary` and the
conclusion filter of `buildDeploymentSeries`) classify by exact,
case-sensitive string equality with `"failure"` / `"success"`, so strings
such as `"FAILED"` or `"Successful"` match neither. -/
theorem outcome_classifiers_amended :
    ∀ (s : String) (ts : ℤ),
      (calculateChangeFailureRatePercent
          [{ sys_id := "cr", number := "CR", sys_created_on := 0, implemented_on := none
             result := s }]
        = if strContains s.toLower "fail" then 100 else 0)
      ∧ (calculateChangeFailureRateSummary
          [{ conclusion := s, created_at := some ts, deploy_time := none
             run_started_at := none, created := none }]
        = if s = "failure" then 100 else 0)
      ∧ ((buildDeploymentSeries
          [{ conclusion := s, created_at := some ts, deploy_time := none
             run_started_at := none, created := none }] 1 "success" ts).totalDeploys
        = if s = "success" then 1 else 0) := by
  intro s ts
  refine ⟨?_, ?_, ?_⟩
  · unfold calculateChangeFailureRatePercent
    rw [if_neg (by simp)]
    dsimp only
    rw [List.filter_cons]
    by_cases hs : strContains s.toLower "fail" = true
    · rw [if_pos (by simpa using hs), if_pos hs]
      norm_num
    · rw [if_neg (by simpa using hs), if_neg hs]
      norm_num
  · unfold calculateChangeFailureRateSummary
    rw [if_neg (by simp)]
    dsimp only
    rw [List.filter_cons]
    by_cases hs : s = "failure"
    · rw [if_pos (by simpa using hs), if_pos hs]
      norm_num
    · rw [if_neg (by simpa using hs), if_neg hs]
      norm_num
  · unfold buildDeploymentSeries
    dsimp only
    rw [show List.range 1 = [0] from rfl]
    simp only [List.map_cons, List.map_nil, List.sum_cons, List.sum_nil]
    unfold countsByDate keepRun
    rw [List.countP_cons, List.countP_nil]
    by_cases hs : s = "success"
    · simp [hs]
    · simp [hs]

/-- Witness for `outcome_classifiers_amended` at the string `"Failure"`. -/
theorem outcome_classifiers_amended_witness :
    calculateChangeFailureRatePercent
        [{ sys_id := "cr", number := "CR", sys_created_on := 0, implemented_on := none
           result := "Failure" }]
      = if strContains ("Failure".toLower) "fail" then 100 else 0 :=
  (outcome_classifiers_amended "Failure" 0).1

/-! ## Claim C6 -/

/-- A workflow run with a valid `deploy_time` at midday of day 0 but no
`created_at`. -/
def runDeployOnly : WorkflowRun :=
  { conclusion := "success", created_at := none, deploy_time := some 43200000
    run_started_at := none, created := none }

/-- Claim C6 counterexample: the claimed field-priority extraction yields the
`deploy_time` timestamp for `runDeployOnly`, so the run would land in the
7-day window ending at day 0 and the series total would be at least 1; the
backend `buildDeploymentSeries` consults only `created_at`, drops the run,
and returns total 0. -/
theorem backend_ignores_deploy_time :
    specFirstTimestamp runDeployOnly.deploy_time runDeployOnly.run_started_at
        runDeployOnly.created_at runDeployOnly.created = some 43200000
    ∧ (buildDeploymentSeries [runDeployOnly] 7 "success" 0).totalDeploys = 0 := by
  constructor
  · rfl
  · with_unfolding_all decide

/-- Claim C6 amended: in the frontend `buildSeriesFromDeployments` with the
default `'deploy_time'` date field the fallback order
`deploy_time → run_started_at → created_at → created` coincides with the
spec's priority extraction (by presence; the first present value is used
without a parseability check), and an event with none of the four fields is
dropped from every bucket; the backend `buildDeploymentSeries`, however,
consults only `created_at` and drops events without it regardless of the
other fields. -/
theorem timestamp_extraction_amended :
    ∀ (d : FrontDep) (rest : List FrontDep) (days : ℕ) (today : ℤ)
      (r : WorkflowRun) (rrest : List WorkflowRun) (concl : String),
      (rawTimestampOf .deployTimeField d
        = specFirstTimestamp d.deploy_time d.run_started_at d.created_at d.created)
      ∧ (rawTimestampOf .deployTimeField d = none →
          buildSeriesFromDeployments (d :: rest) days .deployTimeField today
            = buildSeriesFromDeployments rest days .deployTimeField today)
      ∧ (r.created_at = none →
          buildDeploymentSeries (r :: rrest) days concl today
            = buildDeploymentSeries rrest days concl today) := by
  intro d rest days today r rrest concl
  refine ⟨rfl, ?_, ?_⟩
  · intro h
    unfold buildSeriesFromDeployments
    apply List.map_congr_left
    intro i _
    rw [List.countP_cons, h]
    rfl
  · intro h
    have hcounts : ∀ day, countsByDate (r :: rrest) concl day = countsByDate rrest concl day := by
      intro day
      unfold countsByDate
      rw [List.countP_cons, keepRun, h]
      simp
    unfold buildDeploymentSeries
    rw [show ((List.range days).map fun i =>
          ({ date := dayOfTs today - ((days - 1 - i : ℕ) : ℤ)
             count := countsByDate (r :: rrest) concl
               (dayOfTs today - ((days - 1 - i : ℕ) : ℤ)) } : RawPoint))
        = (List.range days).map fun i =>
          ({ date := dayOfTs today - ((days - 1 - i : ℕ) : ℤ)
             count := countsByDate rrest concl
               (dayOfTs today - ((days - 1 - i : ℕ) : ℤ)) } : RawPoint)
      from List.map_congr_left fun i _ => by rw [hcounts]]

/-- A record carrying none of the four timestamp fields. -/
def emptyFrontDep : FrontDep :=
  { deploy_time := none, run_started_at := none, created_at := none, created := none }

/-- Witness for `timestamp_extraction_amended`: a timestampless event is
dropped by the frontend builder, and a run without `created_at` is dropped by
the backend builder. -/
theorem timestamp_extraction_amended_witness :
    (buildSeriesFromDeployments [emptyFrontDep] 1 .deployTimeField 0
      = buildSeriesFromDeployments [] 1 .deployTimeField 0)
    ∧ (buildDeploymentSeries [runDeployOnly] 1 "success" 0
      = buildDeploymentSeries [] 1 "success" 0) :=
  ⟨(timestamp_extraction_amended emptyFrontDep [] 1 0 runDeployOnly [] "success").2.1 rfl,
   (timestamp_extraction_amended emptyFrontDep [] 1 0 runDeployOnly [] "success").2.2 rfl⟩

/-! ## Claim C7 -/

/-- Claim C7: in the `fetchMetrics` cascade, the alternate retrieval path is
attempted exactly once when and only when the primary fetch fails; when both
fail the caller receives the static default metrics; in every case the
returned record is total — all four metrics populated — and no error escapes
(the source has no ConfigurationError path, so the claim's exception clause
is vacuous). -/
theorem fetch_cascade_one_alternate_then_defaults :
    ∀ (primary : Option GHResponse) (alternate : Option FallbackPayload) (dsCount : ℕ),
      ((fetchMetricsModel primary alternate dsCount).2 = if primary.isSome then 0 else 1)
      ∧ (primary = none → alternate = none →
          (fetchMetricsModel primary alternate dsCount).1 = defaultDashValues)
      ∧ (∀ gh, primary = some gh →
          (fetchMetricsModel primary alternate dsCount).1 = fetchMetricsSuccess gh dsCount)
      ∧ (∀ fb, primary = none → alternate = some fb →
          (fetchMetricsModel primary alternate dsCount).1 = fallbackValues fb) := by
  intro primary alternate dsCount
  cases primary <;> cases alternate <;>
    simp [fetchMetricsModel]

/-- Witness for `fetch_cascade_one_alternate_then_defaults`: both fetches
failing yields one alternate attempt and the default metrics. -/
theorem fetch_cascade_one_alternate_then_defaults_witness :
    ((fetchMetricsModel none none 0).2 = if (none : Option GHResponse).isSome then 0 else 1)
    ∧ (fetchMetricsModel none none 0).1 = defaultDashValues :=
  ⟨(fetch_cascade_one_alternate_then_defaults none none 0).1,
   (fetch_cascade_one_alternate_then_defaults none none 0).2.1 rfl rfl⟩

/-! ## Claim C8 -/

/-- Claim C8 counterexample: a pull request whose `created_at` does not parse
(Invalid Date) but whose `merged_at` does makes `calculateLeadTime` produce
`NaN`, and the backend `/metrics` route serializes that value as
`lead_time.value` — no default is substituted (JSON stringification renders
it as `null`, not as `0` or a last-known value). -/
theorem backend_serializes_nan :
    (ghMetricsResponse [] [{ created_at := .invalid, merged_at := some (.valid 0) }] [] 0).lead_time_value
      = .nan := by
  with_unfolding_all decide

/-- Claim C8 amended: the frontend `toNumber` coercion (and its verbatim
duplicate `toNumberLocal`) never returns `NaN` — the fallback is substituted
— but it passes `Infinity` through unchanged, and the backend performs no
finiteness guard at all: `calculateLeadTime` can hand `NaN` to the serialized
response (see the counterexample). -/
theorem toNumber_substitutes_nan :
    ∀ (v : JSInput) (fb : ℚ),
      toNumber v fb ≠ .nan ∧ toNumberLocal v fb ≠ .nan
        ∧ toNumber (.jnum .inf) fb = .inf := by
  intro v fb
  have key : toNumber v fb ≠ .nan := by
    cases v with
    | jnull => simp [toNumber]
    | jnum n =>
        by_cases hn : n = .nan
        · simp [toNumber, hn]
        · simp [toNumber, hn]
    | jobjPlain =>
        simp [toNumber, orFallback, jsNumberOf]
    | jobjVal w =>
        cases w
        all_goals simp [toNumber, orFallback, jsNumberOf]
        all_goals try (split <;> simp_all)
  exact ⟨key, key, by simp [toNumber]⟩

/-- Witness for `toNumber_substitutes_nan`: a `NaN` input is replaced by the
fallback. -/
theorem toNumber_substitutes_nan_witness :
    toNumber (.jnum .nan) 0 ≠ .nan :=
  (toNumber_substitutes_nan (.jnum .nan) 0).1

/-! ## Claim C9 -/

/-- A random stream on which every draw is `0`: the zero-deployment chance
fires every day, so no synthetic deployments are generated. -/
def snRandZero : ℕ → ℚ := fun _ => 0

/-- Claim C9 counterexample: two calls of the ServiceNow `/metrics`
computation with identical request inputs (`days = 2`) and identical wall
clock differ, because `generateMockData` draws fresh unseeded `Math.random()`
values on every call: one stream yields a deployment total of `1`, the other
`0`. -/
theorem sn_metrics_differ_across_calls :
    (snMetricsResponse 2 0 snRandOneDeploy).deployment_frequency_summary_value = 1
    ∧ (snMetricsResponse 2 0 snRandZero).deployment_frequency_summary_value = 0 :=
  ⟨by with_unfolding_all decide, by with_unfolding_all decide⟩

/-- Claim C9 amended: the GitHub `/metrics` computation is deterministic —
identical fetched runs, pulls, issues and wall clock yield identical
responses, since the embedded computation is a pure function of exactly those
inputs — and the ServiceNow computation is deterministic only once the random
stream is fixed alongside the request inputs; the stream is drawn fresh on
every call (see the counterexample). -/
theorem metrics_pure_in_inputs :
    (∀ (runs runsB : List WorkflowRun) (pulls pullsB : List PullRequest)
        (issues issuesB : List Issue) (today todayB : ℤ),
        runs = runsB → pulls = pullsB → issues = issuesB → today = todayB →
        ghMetricsResponse runs pulls issues today = ghMetricsResponse runsB pullsB issuesB todayB)
    ∧ (∀ (days daysB : ℕ) (now nowB : ℤ) (rand randB : ℕ → ℚ),
        days = daysB → now = nowB → rand = randB →
        snMetricsResponse days now rand = snMetricsResponse daysB nowB randB) := by
  constructor
  · intro runs runsB pulls pullsB issues issuesB today todayB h1 h2 h3 h4
    rw [h1, h2, h3, h4]
  · intro days daysB now nowB rand randB h1 h2 h3
    rw [h1, h2, h3]

/-- Witness for `metrics_pure_in_inputs` at concrete inputs. -/
theorem metrics_pure_in_inputs_witness :
    ghMetricsResponse [] [] [] 0 = ghMetricsResponse [] [] [] 0 :=
  metrics_pure_in_inputs.1 [] [] [] [] [] [] 0 0 rfl rfl rfl rfl

/-! ## Claim C10 -/

/-- Claim C10: `calculateMTTR` considers only issues that are in state
`"closed"` and carry a label whose name contains `"incident"`
case-insensitively; prepending any issue that fails this test leaves the
MTTR summary unchanged — it contributes nothing. -/
theorem mttr_ignores_nonqualifying (issue : Issue) (issues : List Issue)
    (h : issueQualifies issue = false) :
    calculateMTTR (issue :: issues) = calculateMTTR issues := by
  unfold calculateMTTR
  simp only [List.filter_cons, h, Bool.false_eq_true, if_false]

/-- A closed issue labelled `incident`, resolved after two hours. -/
def closedIncidentIssue : Issue :=
  { labels := [{ name := "Incident-prod" }], state := "closed", created_at := 0
    closed_at := some 7200000 }

/-- An incident-labelled issue that is still open. -/
def openIncidentIssue : Issue :=
  { labels := [{ name := "incident" }], state := "open", created_at := 0
    closed_at := none }

/-- Witness for `mttr_ignores_nonqualifying`: an open incident-labelled issue
contributes nothing to the MTTR summary. -/
theorem mttr_ignores_nonqualifying_witness :
    issueQualifies openIncidentIssue = false
    ∧ calculateMTTR [openIncidentIssue, closedIncidentIssue]
        = calculateMTTR [closedIncidentIssue] :=
  ⟨by with_unfolding_all decide,
   mttr_ignores_nonqualifying openIncidentIssue [closedIncidentIssue]
     (by with_unfolding_all decide)⟩
